import Mathlib

/-!
Verification development for the HorizontalBarChart visual
(`src/barChart.ts`).  The definitions below are a shallow embedding of the
program: JavaScript numbers are modelled by `JSNum` (a rational together
with the non-finite values `-Infinity`, `Infinity` and `NaN`), nullable /
optional JavaScript values by `Option`, and code that can throw by
`Except`.  `null` and `undefined` are collapsed into `Option.none`; no path
analysed below distinguishes them.
-/

/-- Model of a JavaScript number: a rational or one of the three
non-finite values. -/
inductive JSNum where
  | num (q : ℚ)
  | negInf
  | posInf
  | nan
  deriving DecidableEq, Repr

/-- A possibly `null`/`undefined` JavaScript number. -/
abbrev JSVal := Option JSNum

/-- Coercion of a possibly-missing value to a number, as JavaScript's
`ToNumber` does for `undefined` (yields `NaN`). -/
def toNum (v : JSVal) : JSNum := v.getD .nan

/-- JavaScript `<=` on numbers: any comparison involving `NaN` is false. -/
def jsLeN : JSNum → JSNum → Bool
  | .nan, _ => false
  | _, .nan => false
  | .negInf, _ => true
  | _, .negInf => false
  | _, .posInf => true
  | .posInf, _ => false
  | .num a, .num b => decide (a ≤ b)

/-- JavaScript `<` on numbers: any comparison involving `NaN` is false. -/
def jsLtN : JSNum → JSNum → Bool
  | .nan, _ => false
  | _, .nan => false
  | .negInf, .negInf => false
  | .negInf, _ => true
  | _, .negInf => false
  | .posInf, _ => false
  | .num _, .posInf => true
  | .num a, .num b => decide (a < b)

/-- JavaScript `a > b` on possibly-missing values (`arr[i].value > max`). -/
def jsGtV (a b : JSVal) : Bool := jsLtN (toNum b) (toNum a)

/-- Two-argument `Math.max`: `NaN` is absorbing, otherwise the larger. -/
def jsMax2 (a b : JSNum) : JSNum :=
  if a = .nan ∨ b = .nan then .nan else if jsLeN a b then b else a

/-- `Math.max.apply(Math, list)`: folds `Math.max` over the list starting
from no arguments, which yields `-Infinity` for the empty list. -/
def mathMaxList (l : List JSVal) : JSNum :=
  l.foldl (fun acc v => jsMax2 acc (toNum v)) .negInf

/-- The static configuration `BarChart.Config`. -/
structure BarChartConfig where
  barPadding : ℚ
  fontScaleFactor : ℚ
  maxHeightScale : ℚ
  outerPaddingScale : ℚ
  solidOpacity : ℚ
  transparentOpacity : ℚ
  xAxisFontMultiplier : ℚ
  xScalePadding : ℚ
  xScaledMin : ℚ

/-- `BarChart.Config` as defined in the source. -/
def Config : BarChartConfig :=
  { barPadding := 0.15
    fontScaleFactor := 3
    maxHeightScale := 3
    outerPaddingScale := 0.5
    solidOpacity := 1
    transparentOpacity := 0.5
    xAxisFontMultiplier := 0.04
    xScalePadding := 0.15
    xScaledMin := 30 }

/-- `IBarChartSettings.generalView`.  `Fill` objects are modelled by their
colour string. -/
structure GeneralViewSettings where
  minHeight : ℚ
  barHeight : ℚ
  opacity : ℚ
  barsColor : String
  overlapColor : String
  textColor : String
  deriving DecidableEq, Repr

/-- `IBarChartSettings.fontParams` (`show` is a Lean keyword, hence `show'`). -/
structure FontParamsSettings where
  show' : Bool
  fontSize : ℚ
  deriving DecidableEq, Repr

/-- `IBarChartSettings.units`. -/
structure UnitsSettings where
  tooltipUnits : ℚ
  decimalPlaces : Option ℚ
  deriving DecidableEq, Repr

/-- `IBarChartSettings.showBarLabels`. -/
structure ShowBarLabelsSettings where
  show' : Bool
  textColor : String
  highlightColor : String
  deriving DecidableEq, Repr

/-- `IBarChartSettings.alignBarLabels`. -/
structure AlignBarLabelsSettings where
  show' : Bool
  deriving DecidableEq, Repr

/-- `IBarChartSettings.barShape`. -/
structure BarShapeSettings where
  shape : String
  labelPosition : String
  headColor : String
  deriving DecidableEq, Repr

/-- `IBarChartSettings.barHeight`. -/
structure BarHeightSettings where
  show' : Bool
  height : ℚ
  deriving DecidableEq, Repr

/-- `IBarChartSettings.experimental`. -/
structure ExperimentalSettings where
  show' : Bool
  blendMode : String
  deriving DecidableEq, Repr

/-- `IBarChartSettings.clearFilters`. -/
structure ClearFiltersSettings where
  show' : Bool
  deriving DecidableEq, Repr

/-- The `IBarChartSettings` interface. -/
structure IBarChartSettings where
  generalView : GeneralViewSettings
  fontParams : FontParamsSettings
  units : UnitsSettings
  showBarLabels : ShowBarLabelsSettings
  alignBarLabels : AlignBarLabelsSettings
  barShape : BarShapeSettings
  barHeight : BarHeightSettings
  experimental : ExperimentalSettings
  clearFilters : ClearFiltersSettings
  deriving DecidableEq, Repr

/-- The `defaultSettings` literal from `visualTransform`. -/
def defaultSettings : IBarChartSettings :=
  { alignBarLabels := { show' := false }
    barHeight := { height := 30, show' := true }
    barShape := { headColor := "#FEA19E", labelPosition := "Top", shape := "Bar" }
    clearFilters := { show' := false }
    experimental := { blendMode := "difference", show' := false }
    fontParams := { fontSize := 11, show' := false }
    generalView :=
      { barHeight := 30, barsColor := "turquoise", minHeight := 250,
        opacity := 100, overlapColor := "#FEA19E", textColor := "#000" }
    showBarLabels := { highlightColor := "#000", show' := true, textColor := "#FFF" }
    units := { decimalPlaces := none, tooltipUnits := 0 } }

/-- Host-provided `metadata.objects` property overrides: one optional slot
per recognised property, mirroring the `getValue` lookups in
`visualTransform`. -/
structure SettingsOverrides where
  alignBarLabelsShow : Option Bool := none
  barHeightHeight : Option ℚ := none
  barHeightShow : Option Bool := none
  barShapeHeadColor : Option String := none
  barShapeLabelPosition : Option String := none
  barShapeShape : Option String := none
  clearFiltersShow : Option Bool := none
  experimentalBlendMode : Option String := none
  experimentalShow : Option Bool := none
  fontParamsFontSize : Option ℚ := none
  fontParamsShow : Option Bool := none
  generalViewBarHeight : Option ℚ := none
  generalViewBarsColor : Option String := none
  generalViewMinHeight : Option ℚ := none
  generalViewOpacity : Option ℚ := none
  generalViewOverlapColor : Option String := none
  generalViewTextColor : Option String := none
  showBarLabelsHighlightColor : Option String := none
  showBarLabelsShow : Option Bool := none
  showBarLabelsTextColor : Option String := none
  unitsDecimalPlaces : Option (Option ℚ) := none
  unitsTooltipUnits : Option ℚ := none

/-- Modelled from the spec: `getValue` lives in
`objectEnumerationUtility.ts`, which is not among the provided sources.
Per the spec (section 3), each option has a default and unset
host-provided values fall back to that default. -/
def getValue {α : Type} (objectValue : Option α) (defaultValue : α) : α :=
  objectValue.getD defaultValue

/-- The `IBarChartSettings` literal assembled by `visualTransform` from
`metadata.objects` via `getValue`, group by group. -/
def resolveSettings (objects : Option SettingsOverrides) : IBarChartSettings :=
  let o := objects.getD {}
  { alignBarLabels :=
      { show' := getValue o.alignBarLabelsShow defaultSettings.alignBarLabels.show' }
    barHeight :=
      { height := getValue o.barHeightHeight defaultSettings.barHeight.height
        show' := getValue o.barHeightShow defaultSettings.barHeight.show' }
    barShape :=
      { headColor := getValue o.barShapeHeadColor defaultSettings.barShape.headColor
        labelPosition := getValue o.barShapeLabelPosition defaultSettings.barShape.labelPosition
        shape := getValue o.barShapeShape defaultSettings.barShape.shape }
    clearFilters :=
      { show' := getValue o.clearFiltersShow defaultSettings.clearFilters.show' }
    experimental :=
      { blendMode := getValue o.experimentalBlendMode defaultSettings.experimental.blendMode
        show' := getValue o.experimentalShow defaultSettings.experimental.show' }
    fontParams :=
      { fontSize := getValue o.fontParamsFontSize defaultSettings.fontParams.fontSize
        show' := getValue o.fontParamsShow defaultSettings.fontParams.show' }
    generalView :=
      { barHeight := getValue o.generalViewBarHeight defaultSettings.generalView.barHeight
        barsColor := getValue o.generalViewBarsColor defaultSettings.generalView.barsColor
        minHeight := getValue o.generalViewMinHeight defaultSettings.generalView.minHeight
        opacity := getValue o.generalViewOpacity defaultSettings.generalView.opacity
        overlapColor := getValue o.generalViewOverlapColor defaultSettings.generalView.overlapColor
        textColor := getValue o.generalViewTextColor defaultSettings.generalView.textColor }
    showBarLabels :=
      { highlightColor :=
          getValue o.showBarLabelsHighlightColor defaultSettings.showBarLabels.highlightColor
        show' := getValue o.showBarLabelsShow defaultSettings.showBarLabels.show'
        textColor := getValue o.showBarLabelsTextColor defaultSettings.showBarLabels.textColor }
    units :=
      { decimalPlaces := getValue o.unitsDecimalPlaces defaultSettings.units.decimalPlaces
        tooltipUnits := getValue o.unitsTooltipUnits defaultSettings.units.tooltipUnits } }

/-- A `DataViewMetadataColumn`: the fields the visual reads
(`displayName`, `index`, `roles`). -/
structure MetaColumn where
  displayName : String
  index : Int
  roles : List String
  deriving DecidableEq, Repr

/-- The category column `categorical.categories[0]`.  Raw category values
are modelled by their stringification; `colorOverrides` models the
per-row `colorSelector` objects consumed by `getCategoricalObjectValue`. -/
structure CategoryColumn where
  source : Option MetaColumn
  values : List String
  colorOverrides : List (Option String) := []
  deriving DecidableEq, Repr

/-- A value column of `categorical.values`. -/
structure ValueColumn where
  source : MetaColumn
  values : List JSVal
  maxLocal : JSVal
  deriving DecidableEq, Repr

/-- `dataViews[0].categorical`: both member arrays may be absent. -/
structure Categorical where
  categories : Option (List CategoryColumn)
  values : Option (List ValueColumn)
  deriving DecidableEq, Repr

/-- `dataViews[0].metadata`. -/
structure Metadata where
  columns : List MetaColumn
  objects : Option SettingsOverrides

/-- A data view. -/
structure DataView where
  categorical : Option Categorical
  metadata : Metadata

/-- `options.viewport`. -/
structure Viewport where
  width : ℚ
  height : ℚ
  deriving DecidableEq, Repr

/-- `VisualUpdateOptions`: the fields `visualTransform` and `update` read. -/
structure VisualUpdateOptions where
  dataViews : Option (List DataView)
  viewport : Viewport

/-- The host services the transform consumes (colour palette, text
measurement, the formatting utilities).  They are opaque to the visual,
so they are modelled as arbitrary total functions. -/
structure Host where
  getColor : String → String
  measureTextWidth : String → ℚ → String → ℚ
  formatValue : Option String → JSVal → String
  formatCategory : Option String → Option String → String
  getFormatStringByColumn : Option MetaColumn → Option String
  isStandardFormat : Option String → Bool
  customFormatPrecision : Option String → Option ℚ

/-- `IBarChartDataPoint`. -/
structure DataPoint where
  category : String
  color : String
  currTextWidth : ℚ
  formattedOverlapValue : String
  formattedValue : String
  overlapValue : JSVal
  precision : Option ℚ
  selected : Bool
  selectionId : Nat
  tooltip : List (String × String)
  value : JSVal
  width : Option ℚ
  deriving DecidableEq, Repr

/-- `IBarChartViewModel`.  The empty settings object `<IBarChartSettings>{}`
is modelled by `none`. -/
structure IBarChartViewModel where
  dataPoints : List DataPoint
  dataMax : JSVal
  widthMax : ℚ
  settings : Option IBarChartSettings
  deriving DecidableEq, Repr

/-- Modelled from the spec: `getCategoricalObjectValue` lives in
`objectEnumerationUtility.ts`, which is not among the provided sources.
Per the spec (section 4.2), a per-row user override is used when present,
otherwise the supplied default is used. -/
def getCategoricalObjectValue (colorOverrides : List (Option String)) (i : Nat)
    (defaultColor : String) : String :=
  ((colorOverrides[i]?).join).getD defaultColor

/-- `getMetadataIndexFor`: linear scan by display name; when no column
matches, the loop variable has run to `columns.length`, which is what the
function returns. -/
def getMetadataIndexFor (displayName : String) (columns : List MetaColumn) : Nat :=
  match columns.findIdx? (fun c => c.displayName = displayName) with
  | some i => i
  | none => columns.length

/-- `getOverlapIndex`: scans all metadata columns with `forEach`, keeping
the `index` of every column carrying the `overlapValues` role, so the
last such column wins; `-1` when there is none. -/
def getOverlapIndex (metadata : Metadata) : Int :=
  if metadata.columns.length > 0 then
    metadata.columns.foldl
      (fun index element => if "overlapValues" ∈ element.roles then element.index else index)
      (-1)
  else (-1)

/-- `getDataValueForOverlapValue`: first value column whose
`source.index` equals `overlapIndex` (the loop breaks on the first hit);
its `values`, or `[]` when no column matches. -/
def getDataValueForOverlapValue (values : List ValueColumn) (overlapIndex : Int) :
    List JSVal :=
  match values with
  | [] => []
  | v :: rest =>
    if v.source.index = overlapIndex then v.values
    else getDataValueForOverlapValue rest overlapIndex

/-- The `dataMax` computation at the end of `visualTransform`:
`dataMax = dataValue.maxLocal <= overlapDataValueMax ? overlapDataValueMax
: dataValue.maxLocal`. -/
def computeDataMax (maxLocal : JSVal) (overlapDataValue : List JSVal) : JSVal :=
  let overlapDataValueMax := mathMaxList overlapDataValue
  if jsLeN (toNum maxLocal) overlapDataValueMax then some overlapDataValueMax else maxLocal

/-- The body of the per-row loop of `visualTransform`, producing the data
point pushed for row `i`. -/
def buildDataPoint (host : Host) (settings : IBarChartSettings) (md : Metadata)
    (category : CategoryColumn) (dataValue : ValueColumn) (vals : List ValueColumn)
    (overlapDataValue : List JSVal) (i : Nat) : DataPoint :=
  let categoryStr := (category.values[i]?).getD "undefined"
  let format := host.getFormatStringByColumn
    (md.columns[getMetadataIndexFor dataValue.source.displayName md.columns]?)
  let formattedCategory := host.formatCategory format (category.values[i]?)
  { category := categoryStr
    color := getCategoricalObjectValue category.colorOverrides i (host.getColor categoryStr)
    currTextWidth :=
      host.measureTextWidth "Segoe UI" settings.fontParams.fontSize formattedCategory
    formattedOverlapValue := ""
    formattedValue := host.formatValue format ((dataValue.values[i]?).join)
    overlapValue := if overlapDataValue.length > 0 then (overlapDataValue[i]?).join else none
    precision :=
      if host.isStandardFormat format = false then host.customFormatPrecision format else none
    selected := false
    selectionId := i
    tooltip := (vals.drop 1).map (fun td =>
      (td.source.displayName,
       host.formatValue
         (host.getFormatStringByColumn
           (md.columns[getMetadataIndexFor td.source.displayName md.columns]?))
         ((td.values[i]?).join)))
    value := (dataValue.values[i]?).join
    width := none }

/-- `visualTransform`.  Follows the source's validation gate literally:
`!dataViews`, `!dataViews[0]`, `!dataViews[0].categorical`,
`!...categorical.categories`, `!...categories[0].source`,
`!...categorical.values`, in that order, each returning the empty view
model.  Reading `.source` off `categories[0]` when the categories array is
empty throws a `TypeError` (`Except.error`), as does reading
`dataValue.values` when the values array is empty. -/
def visualTransform (options : VisualUpdateOptions) (host : Host) :
    Except Unit IBarChartViewModel :=
  let viewModel : IBarChartViewModel :=
    { dataMax := some (.num 0), dataPoints := [], settings := none, widthMax := 0 }
  match options.dataViews with
  | none => .ok viewModel
  | some dataViews =>
    match dataViews[0]? with
    | none => .ok viewModel
    | some dv =>
      match dv.categorical with
      | none => .ok viewModel
      | some categorical =>
        match categorical.categories with
        | none => .ok viewModel
        | some categories =>
          match categories[0]? with
          | none => .error ()
          | some category =>
            match category.source with
            | none => .ok viewModel
            | some _ =>
              match categorical.values with
              | none => .ok viewModel
              | some vals =>
                match vals[0]? with
                | none => .error ()
                | some dataValue =>
                  let overlapIndex := getOverlapIndex dv.metadata
                  let overlapDataValue :=
                    if overlapIndex ≠ -1 then getDataValueForOverlapValue vals overlapIndex
                    else []
                  let settings := resolveSettings dv.metadata.objects
                  let dataPoints :=
                    (List.range (max category.values.length dataValue.values.length)).map
                      (buildDataPoint host settings dv.metadata category dataValue vals
                        overlapDataValue)
                  .ok
                    { dataMax := computeDataMax dataValue.maxLocal overlapDataValue
                      dataPoints := dataPoints
                      settings := some settings
                      widthMax := 0 }

/-- `Math.floor` on the rational model. -/
def jsFloor (q : ℚ) : ℚ := (q.floor : ℚ)

/-- `Math.round` on the rational model (round half toward positive
infinity). -/
def jsRound (q : ℚ) : ℚ := ((q + 1/2).floor : ℚ)

/-- The step of a d3 band scale with `rangeRound([r0, r1])`, `n` domain
entries, the given inner and outer paddings: inner padding is clamped to
`[0, 1]`, the step is `(stop - start) / max(1, n - paddingInner +
2 * paddingOuter)`, floored because the range is rounded. -/
def scaleBandStep (r0 r1 : ℚ) (n : ℕ) (paddingInner paddingOuter : ℚ) : ℚ :=
  let pIn := max 0 (min 1 paddingInner)
  let start := if r1 < r0 then r1 else r0
  let stop := if r1 < r0 then r0 else r1
  jsFloor ((stop - start) / max 1 ((n : ℚ) - pIn + paddingOuter * 2))

/-- The bandwidth of the same d3 band scale: `step * (1 - paddingInner)`,
rounded because the range is rounded. -/
def scaleBandBandwidth (r0 r1 : ℚ) (n : ℕ) (paddingInner paddingOuter : ℚ) : ℚ :=
  let pIn := max 0 (min 1 paddingInner)
  jsRound (scaleBandStep r0 r1 n paddingInner paddingOuter * (1 - pIn))

/-- The minimum slot height `xScaledMin` resolved in `update`: the user's
fixed bar height when the `barHeight` toggle is on, else
`Config.xScaledMin` (30). -/
def resolvedMinBarHeight (settings : IBarChartSettings) : ℚ :=
  if settings.barHeight.show' then settings.barHeight.height else Config.xScaledMin

/-- `calcHeight`: the height needed when every row gets the minimum slot
height, computed in the source with the initial `outerPadding = -0.1`:
`(-2 * outerPadding - xScalePadding + n) * xScaledMin`. -/
def calcHeightFor (n : ℕ) (xScaledMin : ℚ) : ℚ :=
  (-2 * (-0.1 : ℚ) - Config.xScalePadding + (n : ℚ)) * xScaledMin

/-- The geometry `update` derives before rendering. -/
structure LayoutResult where
  height : ℚ
  outerPadding : ℚ
  step : ℚ
  bandwidth : ℚ
  deriving Repr

/-- The scale-fitting computation of `BarChart.update` (lines 535-591 of
the source): resolves `xScaledMax`, `xScaledMin`, `outerPadding`,
possibly grows `height` to `calcHeight`, then builds the band scale over
`[5, height]` with inner padding `Config.barPadding` and the resolved
outer padding.  `n` is `viewModel.dataPoints.length`. -/
def computeLayout (viewportHeight : ℚ) (n : ℕ) (settings : IBarChartSettings) :
    LayoutResult :=
  let xScaledMax := viewportHeight / Config.maxHeightScale
  let xScaledMin := resolvedMinBarHeight settings
  let outerPadding : ℚ := -0.1
  let calcX :=
    viewportHeight / (2 * Config.outerPaddingScale - Config.xScalePadding + (n : ℚ))
  let calcHeight := calcHeightFor n xScaledMin
  let heightAndPadding : ℚ × ℚ :=
    if calcX > xScaledMax then
      if xScaledMax ≥ xScaledMin then
        let tempOuterPadding :=
          (viewportHeight - (-Config.xScalePadding + (n : ℚ)) * xScaledMax) /
            (2 * xScaledMax)
        (viewportHeight, if tempOuterPadding > 0 then tempOuterPadding else outerPadding)
      else
        let tempOuterPadding :=
          (viewportHeight - (-Config.xScalePadding + (n : ℚ)) * xScaledMin) /
            (2 * xScaledMin)
        (viewportHeight, if tempOuterPadding > 0 then tempOuterPadding else outerPadding)
    else
      if calcX < xScaledMin ∧ calcHeight > viewportHeight then (calcHeight, outerPadding)
      else (viewportHeight, outerPadding)
  { height := heightAndPadding.1
    outerPadding := heightAndPadding.2
    step := scaleBandStep 5 heightAndPadding.1 n Config.barPadding heightAndPadding.2
    bandwidth := scaleBandBandwidth 5 heightAndPadding.1 n Config.barPadding heightAndPadding.2 }

/-- The font-size resolution of `update`: the user's fixed size when
`fontParams.show` is on, else `bandwidth / Config.fontScaleFactor`, and
the two clamping `if`s that only fire when `fontParams.show` is off. -/
def fontSizeToUse (settings : IBarChartSettings) (bandwidth : ℚ) : ℚ :=
  let f0 :=
    if settings.fontParams.show' then settings.fontParams.fontSize
    else bandwidth / Config.fontScaleFactor
  let f1 := if f0 < 8.5 ∧ ¬settings.fontParams.show' then (8.5 : ℚ) else f0
  if f1 > 40 ∧ ¬settings.fontParams.show' then (40 : ℚ) else f1

/-- The accumulator loop of `getIndexForDataMax`: `maxVal` and `p` hold
the running maximum and its index, `i` the index of the head of `arr`. -/
def getIndexForDataMaxAux (arr : List DataPoint) (maxVal : JSVal) (p i : Nat) : Nat :=
  match arr with
  | [] => p
  | a :: rest =>
    if jsGtV a.value maxVal then getIndexForDataMaxAux rest a.value i (i + 1)
    else getIndexForDataMaxAux rest maxVal p (i + 1)

/-- `getIndexForDataMax`: `0` for arrays of length `< 1`, otherwise a scan
from index 1 keeping the first strictly-greatest value's index. -/
def getIndexForDataMax (arr : List DataPoint) : Nat :=
  match arr with
  | [] => 0
  | a :: rest => getIndexForDataMaxAux rest a.value 0 1

/-- The formatted value `update` measures for label-width reservation:
`dataPoints.length > 0 ? dataPoints[indexForDataMax].formattedValue : ""`.
The JavaScript indexing (which would throw on an out-of-range index) is
modelled with an optional result. -/
def measuredFormattedValue (dataPoints : List DataPoint) : Option String :=
  if dataPoints.length > 0 then
    (dataPoints[getIndexForDataMax dataPoints]?).map (fun d => d.formattedValue)
  else some ""

/-- A rendered row as the selection-sync code sees it: the bound datum's
selection identity plus the element's current `fill-opacity` style
(`none` models the style being unset). -/
structure RenderedRow where
  selectionId : Nat
  fillOpacity : Option ℚ
  deriving DecidableEq, Repr

/-- `BarChart.isSelectionIdInArray`; the host's opaque
`ISelectionId.includes` test is a parameter. -/
def isSelectionIdInArray (includes : Nat → Nat → Bool)
    (selectionIds : Option (List Nat)) (selectionId : Option Nat) : Bool :=
  match selectionIds, selectionId with
  | none, _ => false
  | _, none => false
  | some ids, some sid => ids.any (fun currentSelectionId => includes currentSelectionId sid)

/-- `BarChart.syncSelectionState`: missing selection or missing id array
leaves everything untouched; an empty id array resets `fill-opacity` to
the default style; otherwise every row gets `solidOpacity` when its
identity is in the array and `transparentOpacity` when not. -/
def syncSelectionState (includes : Nat → Nat → Bool)
    (selection : Option (List RenderedRow)) (selectionIds : Option (List Nat)) :
    Option (List RenderedRow) :=
  match selection, selectionIds with
  | none, _ => none
  | some rows, none => some rows
  | some rows, some ids =>
    if ids.length = 0 then
      some (rows.map (fun r => { r with fillOpacity := none }))
    else
      some (rows.map (fun r =>
        { r with
          fillOpacity := some
            (if isSelectionIdInArray includes (some ids) (some r.selectionId) then
              Config.solidOpacity
            else Config.transparentOpacity) }))

/-- A property value in an enumerated property bag. -/
inductive PropVal where
  | b (v : Bool)
  | n (v : ℚ)
  | s (v : String)
  deriving DecidableEq, Repr

/-- The property bag pushed by `BarChart.enumerateObjectInstances` for a
requested object name (the `properties` record of the single
`VisualObjectInstance`, in source order); `[]` for unrecognised names. -/
def enumerateProps (settings : IBarChartSettings) (objectName : String) :
    List (String × PropVal) :=
  if objectName = "fontParams" then
    [("fontSize", .n settings.fontParams.fontSize),
     ("show", .b settings.fontParams.show')]
  else if objectName = "generalView" then
    [("barsColor", .s settings.generalView.barsColor),
     ("opacity", .n settings.generalView.opacity),
     ("overlapColor", .s settings.generalView.overlapColor),
     ("textColor", .s settings.generalView.textColor)]
  else if objectName = "showBarLabels" then
    [("highlightColor", .s settings.showBarLabels.highlightColor),
     ("show", .b settings.showBarLabels.show'),
     ("textColor", .s settings.showBarLabels.textColor)]
  else if objectName = "alignBarLabels" then
    [("show", .b settings.alignBarLabels.show')]
  else if objectName = "barShape" then
    [("headColor", .s settings.barShape.headColor),
     ("labelPosition", .s settings.barShape.labelPosition),
     ("shape", .s settings.barShape.shape)]
  else if objectName = "barHeight" then
    [("height", .n settings.barHeight.height),
     ("show", .b settings.barHeight.show')]
  else if objectName = "experimental" then
    [("blendMode", .s settings.experimental.blendMode),
     ("show", .b settings.experimental.show')]
  else if objectName = "clearFilters" then
    [("show", .b settings.clearFilters.show')]
  else []

/-- The numeric-range validation metadata (`validValues`) attached by
`enumerateObjectInstances`: property name with `(min, max)`. -/
def enumerateValidValues (objectName : String) : List (String × ℚ × ℚ) :=
  if objectName = "generalView" then
    [("barHeight", (20, 200)), ("minHeight", (50, 2500)), ("opacity", (10, 100))]
  else if objectName = "barHeight" then
    [("height", (20, 200))]
  else []

/-- The complete property bag of a settings group, following the spec's
words for the round-trip property: every field of the requested
`IBarChartSettings` sub-object with its current value.  This is the
refinement target `enumerateProps` is compared against. -/
def specSubObjectBag (settings : IBarChartSettings) (objectName : String) :
    List (String × PropVal) :=
  if objectName = "fontParams" then
    [("fontSize", .n settings.fontParams.fontSize),
     ("show", .b settings.fontParams.show')]
  else if objectName = "generalView" then
    [("barsColor", .s settings.generalView.barsColor),
     ("barHeight", .n settings.generalView.barHeight),
     ("minHeight", .n settings.generalView.minHeight),
     ("opacity", .n settings.generalView.opacity),
     ("overlapColor", .s settings.generalView.overlapColor),
     ("textColor", .s settings.generalView.textColor)]
  else if objectName = "showBarLabels" then
    [("highlightColor", .s settings.showBarLabels.highlightColor),
     ("show", .b settings.showBarLabels.show'),
     ("textColor", .s settings.showBarLabels.textColor)]
  else if objectName = "alignBarLabels" then
    [("show", .b settings.alignBarLabels.show')]
  else if objectName = "barShape" then
    [("headColor", .s settings.barShape.headColor),
     ("labelPosition", .s settings.barShape.labelPosition),
     ("shape", .s settings.barShape.shape)]
  else if objectName = "barHeight" then
    [("height", .n settings.barHeight.height),
     ("show", .b settings.barHeight.show')]
  else if objectName = "experimental" then
    [("blendMode", .s settings.experimental.blendMode),
     ("show", .b settings.experimental.show')]
  else if objectName = "clearFilters" then
    [("show", .b settings.clearFilters.show')]
  else []

/-- A host whose palette, measurement and formatting services return
fixed trivial values; used to evaluate the transform on concrete data
views. -/
def hostTriv : Host :=
  { getColor := fun _ => "turquoise"
    measureTextWidth := fun _ _ _ => 0
    formatValue := fun _ _ => ""
    formatCategory := fun _ _ => ""
    getFormatStringByColumn := fun _ => none
    isStandardFormat := fun _ => true
    customFormatPrecision := fun _ => none }

/-- A category metadata column for concrete scenarios. -/
def colCat : MetaColumn := { displayName := "Cat", index := 0, roles := ["Category"] }

/-- A primary measure metadata column for concrete scenarios. -/
def colVal : MetaColumn := { displayName := "Val", index := 1, roles := ["measure"] }

/-- An overlap measure metadata column for concrete scenarios. -/
def colOvl : MetaColumn := { displayName := "Ovl", index := 2, roles := ["overlapValues"] }

/-- Metadata holding the three scenario columns. -/
def mdScenario : Metadata := { columns := [colCat, colVal, colOvl], objects := none }

/-- Metadata with no overlap-role column. -/
def mdNoOverlap : Metadata := { columns := [colCat, colVal], objects := none }

/-- Scenario input: categories `A, B, C`, primary `[10, 20, 30]`
(declared max 30), overlap `[5, 25, 15]`. -/
def optsPrimaryDominates : VisualUpdateOptions :=
  { dataViews := some [
      { categorical := some
          { categories := some [{ source := some colCat, values := ["A", "B", "C"] }]
            values := some [
              { source := colVal,
                values := [some (.num 10), some (.num 20), some (.num 30)],
                maxLocal := some (.num 30) },
              { source := colOvl,
                values := [some (.num 5), some (.num 25), some (.num 15)],
                maxLocal := some (.num 25) }] }
        metadata := mdScenario }]
    viewport := { width := 400, height := 300 } }

/-- Scenario input: categories `A, B, C`, primary `[10, 20, 10]`
(declared max 20), overlap `[5, 25, 15]`. -/
def optsOverlapDominates : VisualUpdateOptions :=
  { dataViews := some [
      { categorical := some
          { categories := some [{ source := some colCat, values := ["A", "B", "C"] }]
            values := some [
              { source := colVal,
                values := [some (.num 10), some (.num 20), some (.num 10)],
                maxLocal := some (.num 20) },
              { source := colOvl,
                values := [some (.num 5), some (.num 25), some (.num 15)],
                maxLocal := some (.num 25) }] }
        metadata := mdScenario }]
    viewport := { width := 400, height := 300 } }

/-- A data view whose categories array is present but empty (`0 category
columns`) while a value column exists: the validation gate evaluates
`dataViews[0].categorical.categories[0].source` on `undefined`. -/
def optsEmptyCategories : VisualUpdateOptions :=
  { dataViews := some [
      { categorical := some
          { categories := some []
            values := some [
              { source := colVal, values := [some (.num 1)], maxLocal := some (.num 1) }] }
        metadata := mdNoOverlap }]
    viewport := { width := 400, height := 300 } }

/-- A data view with no categorical shape at all. -/
def optsNoCategorical : VisualUpdateOptions :=
  { dataViews := some [{ categorical := none, metadata := mdNoOverlap }]
    viewport := { width := 400, height := 300 } }

/-- A data view whose category column exists but whose `values` member is
absent. -/
def optsNoValues : VisualUpdateOptions :=
  { dataViews := some [
      { categorical := some
          { categories := some [{ source := some colCat, values := ["A"] }]
            values := none }
        metadata := mdNoOverlap }]
    viewport := { width := 400, height := 300 } }

/-- A data view with two category rows but three primary-value rows. -/
def optsMismatched : VisualUpdateOptions :=
  { dataViews := some [
      { categorical := some
          { categories := some [{ source := some colCat, values := ["A", "B"] }]
            values := some [
              { source := colVal,
                values := [some (.num 10), some (.num 20), some (.num 30)],
                maxLocal := some (.num 30) }] }
        metadata := mdNoOverlap }]
    viewport := { width := 400, height := 300 } }

/-- The empty view model the validation gate returns. -/
def emptyViewModel : IBarChartViewModel :=
  { dataMax := some (.num 0), dataPoints := [], settings := none, widthMax := 0 }

/-- Claim C6: on every update pass, when font auto-sizing is active
(`fontParams.show` false) the used font size is `bandwidth / 3` clamped
into `[8.5, 40]`; when a fixed font size is configured
(`fontParams.show` true) the user's value is used with no clamping. -/
theorem C6_font_size_clamp (settings : IBarChartSettings) (bandwidth : ℚ) :
    (settings.fontParams.show' = false →
      fontSizeToUse settings bandwidth = max 8.5 (min 40 (bandwidth / 3))) ∧
    (settings.fontParams.show' = true →
      fontSizeToUse settings bandwidth = settings.fontParams.fontSize) := by
  constructor
  · intro hs
    have h3 : Config.fontScaleFactor = 3 := rfl
    simp only [fontSizeToUse, hs, Bool.false_eq_true, if_false, not_false_iff, and_true, h3]
    rcases lt_or_le (bandwidth / 3) 8.5 with h1 | h1
    · rw [if_pos h1]
      rw [if_neg (by norm_num)]
      rw [min_eq_right (le_trans h1.le (by norm_num)), max_eq_left h1.le]
    · rw [if_neg (not_lt.mpr h1)]
      rcases lt_or_le (40 : ℚ) (bandwidth / 3) with h2 | h2
      · rw [if_pos h2]
        rw [min_eq_left h2.le, max_eq_right (by norm_num)]
      · rw [if_neg (not_lt.mpr h2)]
        rw [min_eq_right h2, max_eq_right h1]
  · intro hs
    simp [fontSizeToUse, hs]

/-- Witness for C6 at concrete inputs: auto-sizing with bandwidth 90
clamps `90 / 3 = 30` to itself, and a fixed font size 11 passes through. -/
theorem C6_font_size_clamp_witness :
    fontSizeToUse defaultSettings 90 = max 8.5 (min 40 (90 / 3)) ∧
    fontSizeToUse
      { defaultSettings with fontParams := { show' := true, fontSize := 11 } } 90 = 11 := by
  constructor
  · exact (C6_font_size_clamp defaultSettings 90).1 rfl
  · exact (C6_font_size_clamp
      { defaultSettings with fontParams := { show' := true, fontSize := 11 } } 90).2 rfl

/-- Claim C5 (code bug): the validation gate returns the empty view model
when the data view lacks a categorical shape or a values array, but when
the categories array is present and empty (a data view with 0 category
columns) the guard evaluates `categories[0].source` on `undefined` and
throws a `TypeError` instead of returning the empty view model. -/
theorem C5_gate_throws_on_empty_categories :
    (visualTransform optsEmptyCategories hostTriv).toOption = none ∧
    (visualTransform optsNoCategorical hostTriv).toOption = some emptyViewModel ∧
    (visualTransform optsNoValues hostTriv).toOption = some emptyViewModel ∧
    (visualTransform { dataViews := none, viewport := { width := 400, height := 300 } }
        hostTriv).toOption = some emptyViewModel := by
  decide

/-- Claim C1: for every data view accepted by the builder in which the
overlap series is absent or empty and whose primary series declares a
finite numeric maximum, the computed `dataMax` equals
`dataValue.maxLocal` and is neither `-Infinity` nor `NaN` nor missing. -/
theorem C1_dataMax_empty_overlap
    (vp : Viewport) (md : Metadata) (src : MetaColumn)
    (catVals : List String) (ovr : List (Option String)) (moreCats : List CategoryColumn)
    (valsSrc : MetaColumn) (valsList : List JSVal) (restVals : List ValueColumn)
    (host : Host) (q : ℚ)
    (hOverlap :
      getOverlapIndex md = -1 ∨
      getDataValueForOverlapValue
        ({ source := valsSrc, values := valsList, maxLocal := some (.num q) } :: restVals)
        (getOverlapIndex md) = []) :
    ∃ vm, visualTransform
      { dataViews := some [
          { categorical := some
              { categories := some
                  ({ source := some src, values := catVals, colorOverrides := ovr } :: moreCats)
                values := some
                  ({ source := valsSrc, values := valsList, maxLocal := some (.num q) }
                    :: restVals) }
            metadata := md }]
        viewport := vp } host = .ok vm ∧
      vm.dataMax = some (.num q) ∧
      vm.dataMax ≠ some .negInf ∧ vm.dataMax ≠ some .nan ∧ vm.dataMax ≠ none := by
  have hODV : (if getOverlapIndex md ≠ -1 then
      getDataValueForOverlapValue
        ({ source := valsSrc, values := valsList, maxLocal := some (.num q) } :: restVals)
        (getOverlapIndex md)
    else []) = [] := by
    rcases hOverlap with h | h
    · simp [h]
    · by_cases h2 : getOverlapIndex md = -1 <;> simp [h, h2]
  have key : visualTransform
      { dataViews := some [
          { categorical := some
              { categories := some
                  ({ source := some src, values := catVals, colorOverrides := ovr } :: moreCats)
                values := some
                  ({ source := valsSrc, values := valsList, maxLocal := some (.num q) }
                    :: restVals) }
            metadata := md }]
        viewport := vp } host = .ok
      { dataMax := computeDataMax (some (.num q)) []
        dataPoints := (List.range (max catVals.length valsList.length)).map
          (buildDataPoint host (resolveSettings md.objects) md
            { source := some src, values := catVals, colorOverrides := ovr }
            { source := valsSrc, values := valsList, maxLocal := some (.num q) }
            ({ source := valsSrc, values := valsList, maxLocal := some (.num q) } :: restVals)
            [])
        settings := some (resolveSettings md.objects)
        widthMax := 0 } := by
    simp only [visualTransform, List.getElem?_cons_zero, hODV]
  refine ⟨_, key, ?_, ?_, ?_, ?_⟩ <;>
    simp [computeDataMax, mathMaxList, jsLeN, toNum]

/-- Witness for C1: the three-category data view with no overlap column
declares maximum 30, and the transform's `dataMax` is exactly 30. -/
theorem C1_dataMax_empty_overlap_witness :
    (getOverlapIndex mdNoOverlap = -1 ∨
      getDataValueForOverlapValue
        [{ source := colVal,
           values := [some (.num 10), some (.num 20), some (.num 30)],
           maxLocal := some (.num 30) }]
        (getOverlapIndex mdNoOverlap) = []) ∧
    ∃ vm, visualTransform
      { dataViews := some [
          { categorical := some
              { categories := some
                  [{ source := some colCat, values := ["A", "B", "C"], colorOverrides := [] }]
                values := some
                  [{ source := colVal,
                     values := [some (.num 10), some (.num 20), some (.num 30)],
                     maxLocal := some (.num 30) }] }
            metadata := mdNoOverlap }]
        viewport := { width := 400, height := 300 } } hostTriv = .ok vm ∧
      vm.dataMax = some (.num 30) ∧
      vm.dataMax ≠ some .negInf ∧ vm.dataMax ≠ some .nan ∧ vm.dataMax ≠ none := by
  constructor
  · exact Or.inl (by decide)
  · exact C1_dataMax_empty_overlap { width := 400, height := 300 } mdNoOverlap colCat
      ["A", "B", "C"] [] [] colVal [some (.num 10), some (.num 20), some (.num 30)] []
      hostTriv 30 (Or.inl (by decide))

/-- Whether a JavaScript value is a finite number. -/
def isFiniteNum (v : JSVal) : Bool :=
  match v with
  | some (JSNum.num _) => true
  | _ => false

/-- Folding `Math.max` over finite values from a finite accumulator stays
finite, dominates the accumulator and dominates every finite element. -/
theorem mathMax_foldl_num (l : List JSVal) (h : ∀ v ∈ l, isFiniteNum v = true) (a : ℚ) :
    ∃ O, l.foldl (fun acc v => jsMax2 acc (toNum v)) (.num a) = .num O ∧ a ≤ O ∧
      ∀ q : ℚ, some (.num q) ∈ l → q ≤ O := by
  induction l generalizing a with
  | nil => exact ⟨a, rfl, le_refl a, by simp⟩
  | cons v rest ih =>
    obtain ⟨q, rfl⟩ : ∃ q, v = some (.num q) := by
      have hv := h v (List.mem_cons_self v rest)
      cases v with
      | none => simp [isFiniteNum] at hv
      | some w => cases w <;> simp [isFiniteNum] at hv ⊢
    have hstep : jsMax2 (.num a) (toNum (some (JSNum.num q))) = .num (max a q) := by
      by_cases hle : a ≤ q
      · simp [jsMax2, toNum, jsLeN, hle, max_eq_right hle]
      · simp [jsMax2, toNum, jsLeN, hle, max_eq_left (le_of_not_le hle)]
    obtain ⟨O, hfold, hacc, hall⟩ :=
      ih (fun w hw => h w (List.mem_cons_of_mem _ hw)) (max a q)
    refine ⟨O, ?_, le_trans (le_max_left a q) hacc, ?_⟩
    · simpa [hstep] using hfold
    · intro r hr
      rcases List.mem_cons.mp hr with hr | hr
      · have : r = q := by simpa using hr
        exact this ▸ le_trans (le_max_right a q) hacc
      · exact hall r hr

/-- `Math.max.apply` over a list of finite values: `-Infinity` for the
empty list, otherwise a finite maximum dominating every element. -/
theorem mathMaxList_finite (l : List JSVal) (h : ∀ v ∈ l, isFiniteNum v = true) :
    (l = [] ∧ mathMaxList l = .negInf) ∨
      (∃ O, mathMaxList l = .num O ∧ ∀ q : ℚ, some (.num q) ∈ l → q ≤ O) := by
  cases l with
  | nil => exact Or.inl ⟨rfl, rfl⟩
  | cons v rest =>
    right
    obtain ⟨q, rfl⟩ : ∃ q, v = some (.num q) := by
      have hv := h v (List.mem_cons_self v rest)
      cases v with
      | none => simp [isFiniteNum] at hv
      | some w => cases w <;> simp [isFiniteNum] at hv ⊢
    have hhead : jsMax2 .negInf (toNum (some (JSNum.num q))) = .num q := by
      simp [jsMax2, toNum, jsLeN]
    obtain ⟨O, hfold, hacc, hall⟩ :=
      mathMax_foldl_num rest (fun w hw => h w (List.mem_cons_of_mem _ hw)) q
    refine ⟨O, ?_, ?_⟩
    · simpa [mathMaxList, hhead] using hfold
    · intro r hr
      rcases List.mem_cons.mp hr with hr | hr
      · have : r = q := by simpa using hr
        exact this ▸ hacc
      · exact hall r hr

/-- `computeDataMax` with a finite declared maximum and finite overlap
values yields a finite value dominating the declared maximum and every
overlap value. -/
theorem computeDataMax_bounds (M : ℚ) (odv : List JSVal)
    (hover : ∀ v ∈ odv, isFiniteNum v = true) :
    ∃ D, computeDataMax (some (.num M)) odv = some (.num D) ∧ M ≤ D ∧
      ∀ q : ℚ, some (.num q) ∈ odv → q ≤ D := by
  rcases mathMaxList_finite odv hover with ⟨hnil, hmax⟩ | ⟨O, hmax, hall⟩
  · subst hnil
    refine ⟨M, ?_, le_refl M, by simp⟩
    simp [computeDataMax, hmax, toNum, jsLeN]
  · by_cases hle : M ≤ O
    · refine ⟨O, ?_, hle, hall⟩
      simp [computeDataMax, hmax, toNum, jsLeN, hle]
    · refine ⟨M, ?_, le_refl M, fun q hq => le_of_lt (lt_of_le_of_lt (hall q hq)
        (lt_of_not_le hle))⟩
      simp [computeDataMax, hmax, toNum, jsLeN, hle]

/-- Claim C3: for every data view accepted by the builder, the computed
`dataMax` is finite, at least the declared primary maximum (hence at
least every primary value the declared maximum dominates), and at least
every overlap value; in particular primary `[10, 20, 30]` with overlap
`[5, 25, 15]` gives `dataMax = 30` and primary `[10, 20, 10]` with
overlap `[5, 25, 15]` gives `dataMax = 25`. -/
theorem C3_dataMax_bounds :
    (∀ (vp : Viewport) (md : Metadata) (src : MetaColumn) (catVals : List String)
      (ovr : List (Option String)) (moreCats : List CategoryColumn)
      (valsSrc : MetaColumn) (valsList : List JSVal) (restVals : List ValueColumn)
      (host : Host) (M : ℚ),
      (∀ q : ℚ, some (.num q) ∈ valsList → q ≤ M) →
      (∀ v ∈ (if getOverlapIndex md ≠ -1 then
          getDataValueForOverlapValue
            ({ source := valsSrc, values := valsList, maxLocal := some (.num M) } :: restVals)
            (getOverlapIndex md)
        else []), isFiniteNum v = true) →
      ∃ vm, visualTransform
        { dataViews := some [
            { categorical := some
                { categories := some
                    ({ source := some src, values := catVals, colorOverrides := ovr }
                      :: moreCats)
                  values := some
                    ({ source := valsSrc, values := valsList, maxLocal := some (.num M) }
                      :: restVals) }
              metadata := md }]
          viewport := vp } host = .ok vm ∧
        ∃ D : ℚ, vm.dataMax = some (.num D) ∧
          (∀ q : ℚ, some (.num q) ∈ valsList → q ≤ D) ∧
          (∀ q : ℚ, some (.num q) ∈ (if getOverlapIndex md ≠ -1 then
              getDataValueForOverlapValue
                ({ source := valsSrc, values := valsList, maxLocal := some (.num M) }
                  :: restVals)
                (getOverlapIndex md)
            else []) → q ≤ D)) ∧
    (visualTransform optsPrimaryDominates hostTriv).toOption.map (fun vm => vm.dataMax)
      = some (some (.num 30)) ∧
    (visualTransform optsOverlapDominates hostTriv).toOption.map (fun vm => vm.dataMax)
      = some (some (.num 25)) := by
  refine ⟨?_, by decide, by decide⟩
  intro vp md src catVals ovr moreCats valsSrc valsList restVals host M hprim hover
  have key : visualTransform
      { dataViews := some [
          { categorical := some
              { categories := some
                  ({ source := some src, values := catVals, colorOverrides := ovr }
                    :: moreCats)
                values := some
                  ({ source := valsSrc, values := valsList, maxLocal := some (.num M) }
                    :: restVals) }
            metadata := md }]
        viewport := vp } host = .ok
      { dataMax := computeDataMax (some (.num M))
          (if getOverlapIndex md ≠ -1 then
            getDataValueForOverlapValue
              ({ source := valsSrc, values := valsList, maxLocal := some (.num M) }
                :: restVals)
              (getOverlapIndex md)
          else [])
        dataPoints := (List.range (max catVals.length valsList.length)).map
          (buildDataPoint host (resolveSettings md.objects) md
            { source := some src, values := catVals, colorOverrides := ovr }
            { source := valsSrc, values := valsList, maxLocal := some (.num M) }
            ({ source := valsSrc, values := valsList, maxLocal := some (.num M) } :: restVals)
            (if getOverlapIndex md ≠ -1 then
              getDataValueForOverlapValue
                ({ source := valsSrc, values := valsList, maxLocal := some (.num M) }
                  :: restVals)
                (getOverlapIndex md)
            else []))
        settings := some (resolveSettings md.objects)
        widthMax := 0 } := by
    simp only [visualTransform, List.getElem?_cons_zero]
  obtain ⟨D, hD, hMD, hoverD⟩ := computeDataMax_bounds M _ hover
  refine ⟨_, key, D, ?_, fun q hq => le_trans (hprim q hq) hMD, hoverD⟩
  simpa using hD

/-- Witness for C3: the primary-dominates scenario instantiates the
general bound with declared maximum 30. -/
theorem C3_dataMax_bounds_witness :
    ∃ vm, visualTransform
      { dataViews := some [
          { categorical := some
              { categories := some
                  [{ source := some colCat, values := ["A", "B", "C"], colorOverrides := [] }]
                values := some
                  [{ source := colVal,
                     values := [some (.num 10), some (.num 20), some (.num 30)],
                     maxLocal := some (.num 30) },
                   { source := colOvl,
                     values := [some (.num 5), some (.num 25), some (.num 15)],
                     maxLocal := some (.num 25) }] }
            metadata := mdScenario }]
        viewport := { width := 400, height := 300 } } hostTriv = .ok vm ∧
      ∃ D : ℚ, vm.dataMax = some (.num D) ∧
        (∀ q : ℚ, some (.num q) ∈
          ([some (.num 10), some (.num 20), some (.num 30)] : List JSVal) → q ≤ D) ∧
        (∀ q : ℚ, some (.num q) ∈ (if getOverlapIndex mdScenario ≠ -1 then
            getDataValueForOverlapValue
              [{ source := colVal,
                 values := [some (.num 10), some (.num 20), some (.num 30)],
                 maxLocal := some (.num 30) },
               { source := colOvl,
                 values := [some (.num 5), some (.num 25), some (.num 15)],
                 maxLocal := some (.num 25) }]
              (getOverlapIndex mdScenario)
          else []) → q ≤ D) := by
  refine C3_dataMax_bounds.1 { width := 400, height := 300 } mdScenario colCat
    ["A", "B", "C"] [] []
    colVal [some (.num 10), some (.num 20), some (.num 30)]
    [{ source := colOvl,
       values := [some (.num 5), some (.num 25), some (.num 15)],
       maxLocal := some (.num 25) }]
    hostTriv 30 ?_ ?_
  · intro q hq
    simp [JSNum.num.injEq] at hq
    rcases hq with h | h | h <;> rw [h] <;> norm_num
  · decide

/-- Claim C4: for every valid data view the transform returns
`max(category-row count, primary-value-row count)` data points, and rows
past the shorter series' length carry the `undefined` stringification as
category (for a too-short category column) or a missing `value` (for a
too-short primary column). -/
theorem C4_dataPoints_length
    (vp : Viewport) (md : Metadata) (src : MetaColumn) (catVals : List String)
    (ovr : List (Option String)) (moreCats : List CategoryColumn)
    (valsSrc : MetaColumn) (valsList : List JSVal) (maxL : JSVal)
    (restVals : List ValueColumn) (host : Host) :
    ∃ vm, visualTransform
      { dataViews := some [
          { categorical := some
              { categories := some
                  ({ source := some src, values := catVals, colorOverrides := ovr }
                    :: moreCats)
                values := some
                  ({ source := valsSrc, values := valsList, maxLocal := maxL }
                    :: restVals) }
            metadata := md }]
        viewport := vp } host = .ok vm ∧
      vm.dataPoints.length = max catVals.length valsList.length ∧
      (∀ i, catVals.length ≤ i → ∀ p, vm.dataPoints[i]? = some p →
        p.category = "undefined") ∧
      (∀ i, valsList.length ≤ i → ∀ p, vm.dataPoints[i]? = some p →
        p.value = none) := by
  have key : visualTransform
      { dataViews := some [
          { categorical := some
              { categories := some
                  ({ source := some src, values := catVals, colorOverrides := ovr }
                    :: moreCats)
                values := some
                  ({ source := valsSrc, values := valsList, maxLocal := maxL }
                    :: restVals) }
            metadata := md }]
        viewport := vp } host = .ok
      { dataMax := computeDataMax maxL
          (if getOverlapIndex md ≠ -1 then
            getDataValueForOverlapValue
              ({ source := valsSrc, values := valsList, maxLocal := maxL } :: restVals)
              (getOverlapIndex md)
          else [])
        dataPoints := (List.range (max catVals.length valsList.length)).map
          (buildDataPoint host (resolveSettings md.objects) md
            { source := some src, values := catVals, colorOverrides := ovr }
            { source := valsSrc, values := valsList, maxLocal := maxL }
            ({ source := valsSrc, values := valsList, maxLocal := maxL } :: restVals)
            (if getOverlapIndex md ≠ -1 then
              getDataValueForOverlapValue
                ({ source := valsSrc, values := valsList, maxLocal := maxL } :: restVals)
                (getOverlapIndex md)
            else []))
        settings := some (resolveSettings md.objects)
        widthMax := 0 } := by
    simp only [visualTransform, List.getElem?_cons_zero]
  refine ⟨_, key, by simp, ?_, ?_⟩
  · intro i hi p hp
    simp only [List.getElem?_map] at hp
    rcases Option.map_eq_some'.mp hp with ⟨j, hj, rfl⟩
    have hin : i < max catVals.length valsList.length := by
      by_contra hcon
      rw [List.getElem?_eq_none (by simpa using le_of_not_lt hcon)] at hj
      exact Option.noConfusion hj
    rw [List.getElem?_range hin] at hj
    obtain rfl : i = j := (Option.some.injEq _ _).mp hj
    simp [buildDataPoint, List.getElem?_eq_none hi]
  · intro i hi p hp
    simp only [List.getElem?_map] at hp
    rcases Option.map_eq_some'.mp hp with ⟨j, hj, rfl⟩
    have hin : i < max catVals.length valsList.length := by
      by_contra hcon
      rw [List.getElem?_eq_none (by simpa using le_of_not_lt hcon)] at hj
      exact Option.noConfusion hj
    rw [List.getElem?_range hin] at hj
    obtain rfl : i = j := (Option.some.injEq _ _).mp hj
    simp [buildDataPoint, List.getElem?_eq_none hi]

/-- Witness for C4: two categories against three primary values give
three data points, the third with category `undefined`; the concrete
categories and values are also checked directly. -/
theorem C4_dataPoints_length_witness :
    (∃ vm, visualTransform
      { dataViews := some [
          { categorical := some
              { categories := some
                  [{ source := some colCat, values := ["A", "B"], colorOverrides := [] }]
                values := some
                  [{ source := colVal,
                     values := [some (.num 10), some (.num 20), some (.num 30)],
                     maxLocal := some (.num 30) }] }
            metadata := mdNoOverlap }]
        viewport := { width := 400, height := 300 } } hostTriv = .ok vm ∧
      vm.dataPoints.length =
        max (["A", "B"] : List String).length
          ([some (.num 10), some (.num 20), some (.num 30)] : List JSVal).length ∧
      (∀ i, (["A", "B"] : List String).length ≤ i → ∀ p, vm.dataPoints[i]? = some p →
        p.category = "undefined") ∧
      (∀ i, ([some (.num 10), some (.num 20), some (.num 30)] : List JSVal).length ≤ i →
        ∀ p, vm.dataPoints[i]? = some p → p.value = none)) ∧
    (visualTransform optsMismatched hostTriv).toOption.map
        (fun vm => vm.dataPoints.map (fun p => (p.category, p.value)))
      = some [("A", some (.num 10)), ("B", some (.num 20)), ("undefined", some (.num 30))] := by
  constructor
  · exact C4_dataPoints_length { width := 400, height := 300 } mdNoOverlap colCat
      ["A", "B"] [] [] colVal [some (.num 10), some (.num 20), some (.num 30)]
      (some (.num 30)) [] hostTriv
  · decide

/-- Claim C7: after `syncSelectionState` runs with a non-null selection-id
set `S` over rendered rows, every row's fill-opacity is solid (1, or the
default style when `S` is empty) iff the row's identity is contained in
`S` or `S` is empty, and reduced (0.5) otherwise. -/
theorem C7_selection_opacity (includes : Nat → Nat → Bool)
    (rows : List RenderedRow) (S : List Nat) (out : List RenderedRow)
    (hout : syncSelectionState includes (some rows) (some S) = some out) :
    ∀ r ∈ out,
      ((r.fillOpacity = if S = [] then none else some Config.solidOpacity) ↔
        (S = [] ∨ S.any (fun c => includes c r.selectionId) = true)) ∧
      (r.fillOpacity = some Config.transparentOpacity ↔
        (S ≠ [] ∧ ¬ S.any (fun c => includes c r.selectionId) = true)) := by
  intro r hr
  by_cases hS : S = []
  · subst hS
    simp only [syncSelectionState, List.length_nil, if_true, Option.some.injEq,
      eq_self_iff_true] at hout
    subst hout
    rcases List.mem_map.mp hr with ⟨r0, _, rfl⟩
    constructor
    · simp
    · have : Config.transparentOpacity = 0.5 := rfl
      simp [this]
  · have hlen : ¬ S.length = 0 := by
      intro h0
      exact hS (List.length_eq_zero.mp h0)
    simp only [syncSelectionState, if_neg hlen, Option.some.injEq] at hout
    subst hout
    rcases List.mem_map.mp hr with ⟨r0, _, rfl⟩
    have hid : ({ r0 with
        fillOpacity := some
          (if isSelectionIdInArray includes (some S) (some r0.selectionId) then
            Config.solidOpacity
          else Config.transparentOpacity) } : RenderedRow).selectionId = r0.selectionId := rfl
    rw [if_neg hS]
    by_cases hb : S.any (fun c => includes c r0.selectionId) = true
    · constructor
      · simp [isSelectionIdInArray, hid, hb]
      · have hne : Config.solidOpacity ≠ Config.transparentOpacity := by
          intro h
          exact absurd h (by norm_num [Config])
        simp [isSelectionIdInArray, hid, hb, hne]
    · constructor
      · have hne : Config.transparentOpacity ≠ Config.solidOpacity := by
          intro h
          exact absurd h (by norm_num [Config])
        simp [isSelectionIdInArray, hid, hb, hne, hS]
      · simp [isSelectionIdInArray, hid, hb, hS]

/-- Witness for C7: two rows with identities 0 and 1, selection set `[1]`
under equality-containment: row 1 becomes solid, row 0 reduced. -/
theorem C7_selection_opacity_witness :
    syncSelectionState (fun a b => a == b)
        (some [{ selectionId := 0, fillOpacity := none },
               { selectionId := 1, fillOpacity := none }]) (some [1]) =
      some [{ selectionId := 0, fillOpacity := some Config.transparentOpacity },
            { selectionId := 1, fillOpacity := some Config.solidOpacity }] ∧
    (∀ r ∈ [({ selectionId := 0, fillOpacity := some Config.transparentOpacity } : RenderedRow),
            { selectionId := 1, fillOpacity := some Config.solidOpacity }],
      ((r.fillOpacity = if ([1] : List Nat) = [] then none else some Config.solidOpacity) ↔
        (([1] : List Nat) = [] ∨ ([1] : List Nat).any (fun c => (fun a b => a == b) c r.selectionId) = true)) ∧
      (r.fillOpacity = some Config.transparentOpacity ↔
        (([1] : List Nat) ≠ [] ∧
          ¬ ([1] : List Nat).any (fun c => (fun a b => a == b) c r.selectionId) = true))) := by
  constructor
  · rfl
  · exact C7_selection_opacity (fun a b => a == b)
      [{ selectionId := 0, fillOpacity := none }, { selectionId := 1, fillOpacity := none }]
      [1]
      [{ selectionId := 0, fillOpacity := some Config.transparentOpacity },
       { selectionId := 1, fillOpacity := some Config.solidOpacity }]
      rfl

/-- Counterexample to claim C8: for the object name `generalView` the
property bag returned by `enumerateObjectInstances` is not the
`generalView` sub-object of the current settings — the settings'
`minHeight` (250 by default) and `barHeight` fields are absent from the
returned bag. -/
theorem C8_enumerate_roundtrip_counterexample :
    enumerateProps defaultSettings "generalView" ≠
      specSubObjectBag defaultSettings "generalView" ∧
    List.lookup "minHeight" (specSubObjectBag defaultSettings "generalView") =
      some (.n 250) ∧
    List.lookup "minHeight" (enumerateProps defaultSettings "generalView") = none ∧
    List.lookup "barHeight" (enumerateProps defaultSettings "generalView") = none := by
  refine ⟨by decide, by decide, by decide, by decide⟩

/-- Claim C8 as amended: the round-trip holds exactly for fontParams,
showBarLabels, alignBarLabels, barShape, barHeight, experimental and
clearFilters; for generalView the returned bag is the sub-object with
the `minHeight` and `barHeight` fields omitted. -/
theorem C8_enumerate_roundtrip_amended (settings : IBarChartSettings) :
    enumerateProps settings "fontParams" = specSubObjectBag settings "fontParams" ∧
    enumerateProps settings "showBarLabels" = specSubObjectBag settings "showBarLabels" ∧
    enumerateProps settings "alignBarLabels" = specSubObjectBag settings "alignBarLabels" ∧
    enumerateProps settings "barShape" = specSubObjectBag settings "barShape" ∧
    enumerateProps settings "barHeight" = specSubObjectBag settings "barHeight" ∧
    enumerateProps settings "experimental" = specSubObjectBag settings "experimental" ∧
    enumerateProps settings "clearFilters" = specSubObjectBag settings "clearFilters" ∧
    enumerateProps settings "generalView" =
      (specSubObjectBag settings "generalView").filter
        (fun kv => !(kv.1 == "minHeight" || kv.1 == "barHeight")) := by
  refine ⟨?_, ?_, ?_, ?_, ?_, ?_, ?_, ?_⟩ <;> rfl

/-- The `forEach` fold of `getOverlapIndex` leaves the accumulator alone
when no column carries the `overlapValues` role. -/
theorem overlapFoldl_no_role (cols : List MetaColumn) (acc : Int)
    (h : ∀ c ∈ cols, "overlapValues" ∉ c.roles) :
    cols.foldl
      (fun index element => if "overlapValues" ∈ element.roles then element.index else index)
      acc = acc := by
  induction cols generalizing acc with
  | nil => rfl
  | cons d rest ih =>
    have hd : "overlapValues" ∉ d.roles := h d (List.mem_cons_self d rest)
    simp only [List.foldl_cons, if_neg hd]
    exact ih acc (fun c hc => h c (List.mem_cons_of_mem d hc))

/-- The `forEach` fold of `getOverlapIndex` returns the `index` of the
last column carrying the `overlapValues` role, for any accumulator. -/
theorem overlapFoldl_last (cols : List MetaColumn) (acc : Int) (k : ℕ) (c : MetaColumn)
    (hk : cols[k]? = some c) (hrole : "overlapValues" ∈ c.roles)
    (hlast : ∀ j, k < j → ∀ w, cols[j]? = some w → "overlapValues" ∉ w.roles) :
    cols.foldl
      (fun index element => if "overlapValues" ∈ element.roles then element.index else index)
      acc = c.index := by
  induction cols generalizing acc k with
  | nil => simp at hk
  | cons d rest ih =>
    cases k with
    | zero =>
      obtain rfl : d = c := by simpa using hk
      simp only [List.foldl_cons, if_pos hrole]
      exact overlapFoldl_no_role rest _ (fun w hw => by
        obtain ⟨j, hj⟩ := List.mem_iff_getElem?.mp hw
        exact hlast (j + 1) (Nat.succ_pos j) w (by simpa using hj))
    | succ k' =>
      simp only [List.foldl_cons]
      exact ih _ k' (by simpa using hk)
        (fun j hj w hw => hlast (j + 1) (Nat.succ_lt_succ hj) w (by simpa using hw))

/-- Claim C10: `getOverlapIndex` returns the declared `index` of the last
metadata column carrying the `overlapValues` role (`-1` when none), and
`getDataValueForOverlapValue` returns the values of the first value
column whose `source.index` equals the requested index, or the empty
array when no value column matches. -/
theorem C10_overlap_detection :
    (∀ md : Metadata, (∀ c ∈ md.columns, "overlapValues" ∉ c.roles) →
      getOverlapIndex md = -1) ∧
    (∀ (md : Metadata) (k : ℕ) (c : MetaColumn), md.columns[k]? = some c →
      "overlapValues" ∈ c.roles →
      (∀ j, k < j → ∀ w, md.columns[j]? = some w → "overlapValues" ∉ w.roles) →
      getOverlapIndex md = c.index) ∧
    (∀ (values : List ValueColumn) (oi : Int),
      (∀ v ∈ values, v.source.index ≠ oi) → getDataValueForOverlapValue values oi = []) ∧
    (∀ (values : List ValueColumn) (oi : Int) (k : ℕ) (v : ValueColumn),
      values[k]? = some v → v.source.index = oi →
      (∀ j, j < k → ∀ w, values[j]? = some w → w.source.index ≠ oi) →
      getDataValueForOverlapValue values oi = v.values) := by
  refine ⟨?_, ?_, ?_, ?_⟩
  · intro md h
    by_cases hlen : md.columns.length > 0
    · simp only [getOverlapIndex, if_pos hlen]
      exact overlapFoldl_no_role md.columns (-1) h
    · simp only [getOverlapIndex, if_neg hlen]
  · intro md k c hk hrole hlast
    have hlen : md.columns.length > 0 := by
      rcases List.getElem?_eq_some.mp hk with ⟨hlt, _⟩
      omega
    simp only [getOverlapIndex, if_pos hlen]
    exact overlapFoldl_last md.columns (-1) k c hk hrole hlast
  · intro values oi h
    induction values with
    | nil => rfl
    | cons v rest ih =>
      simp only [getDataValueForOverlapValue,
        if_neg (h v (List.mem_cons_self v rest))]
      exact ih (fun w hw => h w (List.mem_cons_of_mem v hw))
  · intro values oi k v hk hv hfirst
    induction values generalizing k with
    | nil => simp at hk
    | cons d rest ih =>
      cases k with
      | zero =>
        obtain rfl : d = v := by simpa using hk
        simp only [getDataValueForOverlapValue, if_pos hv]
      | succ k' =>
        have hd : d.source.index ≠ oi :=
          hfirst 0 (Nat.succ_pos k') d (by simp)
        simp only [getDataValueForOverlapValue, if_neg hd]
        exact ih k' (by simpa using hk)
          (fun j hj w hw => hfirst (j + 1) (Nat.succ_lt_succ hj) w (by simpa using hw))

/-- Witness for C10: with two overlap-role columns (indices 2 and 4) the
last one wins; with two value columns of source index 4 the first one's
values are returned; with no matching column the result is empty. -/
theorem C10_overlap_detection_witness :
    getOverlapIndex
      { columns := [colCat,
          { displayName := "O1", index := 2, roles := ["overlapValues"] },
          { displayName := "O2", index := 4, roles := ["overlapValues"] }],
        objects := none } =
      ({ displayName := "O2", index := 4, roles := ["overlapValues"] } : MetaColumn).index ∧
    getDataValueForOverlapValue
      [{ source := { displayName := "O2", index := 4, roles := ["overlapValues"] },
         values := [some (.num 7)], maxLocal := some (.num 7) },
       { source := { displayName := "O3", index := 4, roles := [] },
         values := [some (.num 9)], maxLocal := some (.num 9) }] 4 =
      [some (.num 7)] ∧
    getDataValueForOverlapValue
      [{ source := colVal, values := [some (.num 7)], maxLocal := some (.num 7) }] 9 = [] := by
  refine ⟨?_, ?_, ?_⟩
  · exact C10_overlap_detection.2.1
      { columns := [colCat,
          { displayName := "O1", index := 2, roles := ["overlapValues"] },
          { displayName := "O2", index := 4, roles := ["overlapValues"] }],
        objects := none }
      2 { displayName := "O2", index := 4, roles := ["overlapValues"] }
      (by decide) (by decide)
      (fun j hj w hw => by
        rw [List.getElem?_eq_none (by simpa using hj)] at hw
        exact absurd hw (by simp))
  · exact C10_overlap_detection.2.2.2
      [{ source := { displayName := "O2", index := 4, roles := ["overlapValues"] },
         values := [some (.num 7)], maxLocal := some (.num 7) },
       { source := { displayName := "O3", index := 4, roles := [] },
         values := [some (.num 9)], maxLocal := some (.num 9) }] 4
      0
      { source := { displayName := "O2", index := 4, roles := ["overlapValues"] },
        values := [some (.num 7)], maxLocal := some (.num 7) }
      (by decide) (by decide)
      (fun j hj w hw => absurd hj (Nat.not_lt_zero j))
  · exact C10_overlap_detection.2.2.1
      [{ source := colVal, values := [some (.num 7)], maxLocal := some (.num 7) }] 9
      (by decide)

/-- Pure shadow of `getIndexForDataMaxAux` on the underlying rationals,
used to reason about the scan. -/
def firstMaxAux (qs : List ℚ) (qm : ℚ) (p i : ℕ) : ℕ :=
  match qs with
  | [] => p
  | q :: rest =>
    if qm < q then firstMaxAux rest q i (i + 1) else firstMaxAux rest qm p (i + 1)

/-- On finite numeric values the scan agrees with its pure shadow. -/
theorem getIndexForDataMaxAux_eq (arr : List DataPoint) (qs : List ℚ)
    (h : arr.map (fun d => d.value) = qs.map (fun q => some (JSNum.num q)))
    (qm : ℚ) (p i : ℕ) :
    getIndexForDataMaxAux arr (some (.num qm)) p i = firstMaxAux qs qm p i := by
  induction arr generalizing qs qm p i with
  | nil =>
    cases qs with
    | nil => rfl
    | cons => simp at h
  | cons a rest ih =>
    cases qs with
    | nil => simp at h
    | cons q qrest =>
      simp only [List.map_cons, List.cons.injEq] at h
      obtain ⟨ha, hrest⟩ := h
      have hgtv : jsGtV (some (.num q)) (some (.num qm)) = decide (qm < q) := rfl
      simp only [getIndexForDataMaxAux, firstMaxAux, ha, hgtv]
      by_cases hc : qm < q <;> simp [hc, ih _ hrest]

/-- The scan's result index is bounded by the indices it has seen. -/
theorem getIndexForDataMaxAux_lt (arr : List DataPoint) (m : JSVal) (p i : ℕ)
    (hp : p < i) : getIndexForDataMaxAux arr m p i < i + arr.length := by
  induction arr generalizing m p i with
  | nil => simpa using hp
  | cons a rest ih =>
    simp only [getIndexForDataMaxAux]
    by_cases hc : jsGtV a.value m = true
    · rw [if_pos hc]
      have h2 := ih a.value i (i + 1) (Nat.lt_succ_self i)
      simp only [List.length_cons]
      omega
    · rw [if_neg hc]
      have h2 := ih m p (i + 1) (Nat.lt_succ_of_lt hp)
      simp only [List.length_cons]
      omega

/-- Behaviour of the pure scan: either no element beats the accumulator
and the carried index is returned, or it returns the position of the
first element achieving the running maximum. -/
theorem firstMaxAux_spec (qs : List ℚ) (qm : ℚ) (p i : ℕ) :
    (firstMaxAux qs qm p i = p ∧ ∀ x ∈ qs, x ≤ qm) ∨
    (∃ k x, k < qs.length ∧ firstMaxAux qs qm p i = i + k ∧ qs[k]? = some x ∧ qm < x ∧
      (∀ j, j < k → ∀ y, qs[j]? = some y → y < x) ∧ (∀ y ∈ qs, y ≤ x)) := by
  induction qs generalizing qm p i with
  | nil => exact Or.inl ⟨rfl, by simp⟩
  | cons q rest ih =>
    by_cases hc : qm < q
    · rcases ih q i (i + 1) with ⟨hval, hall⟩ | ⟨k, x, hk, hval, hget, hgt, hfirst, hall⟩
      · refine Or.inr ⟨0, q, by simp, ?_, by simp, hc, ?_, ?_⟩
        · simpa [firstMaxAux, hc] using hval
        · intro j hj
          exact absurd hj (Nat.not_lt_zero j)
        · intro y hy
          rcases List.mem_cons.mp hy with rfl | hy
          · exact le_refl y
          · exact hall y hy
      · refine Or.inr ⟨k + 1, x, by simpa using hk, ?_, by simpa using hget,
          lt_trans hc hgt, ?_, ?_⟩
        · simp only [firstMaxAux, if_pos hc, hval]
          omega
        · intro j hj y hy
          cases j with
          | zero =>
            obtain rfl : q = y := by simpa using hy
            exact hgt
          | succ j' =>
            exact hfirst j' (Nat.lt_of_succ_lt_succ hj) y (by simpa using hy)
        · intro y hy
          rcases List.mem_cons.mp hy with rfl | hy
          · exact le_of_lt hgt
          · exact hall y hy
    · rcases ih qm p (i + 1) with ⟨hval, hall⟩ | ⟨k, x, hk, hval, hget, hgt, hfirst, hall⟩
      · refine Or.inl ⟨by simpa [firstMaxAux, hc] using hval, ?_⟩
        intro y hy
        rcases List.mem_cons.mp hy with rfl | hy
        · exact le_of_not_lt hc
        · exact hall y hy
      · refine Or.inr ⟨k + 1, x, by simpa using hk, ?_, by simpa using hget, hgt, ?_, ?_⟩
        · simp only [firstMaxAux, if_neg hc, hval]
          omega
        · intro j hj y hy
          cases j with
          | zero =>
            obtain rfl : q = y := by simpa using hy
            exact lt_of_le_of_lt (le_of_not_lt hc) hgt
          | succ j' =>
            exact hfirst j' (Nat.lt_of_succ_lt_succ hj) y (by simpa using hy)
        · intro y hy
          rcases List.mem_cons.mp hy with rfl | hy
          · exact le_of_lt (lt_of_le_of_lt (le_of_not_lt hc) hgt)
          · exact hall y hy

/-- Claim C9: `getIndexForDataMax` is total on every array — 0 for the
empty array, otherwise an in-range index of the first element whose
value equals the maximum (earliest index wins on ties) — and the
formatted value measured in `update` falls back to the empty string for
zero data points, so the empty case never indexes out of range. -/
theorem C9_index_for_data_max :
    (getIndexForDataMax [] = 0 ∧ measuredFormattedValue [] = some "") ∧
    (∀ arr : List DataPoint, arr ≠ [] → getIndexForDataMax arr < arr.length) ∧
    (∀ arr : List DataPoint, (measuredFormattedValue arr).isSome = true) ∧
    (∀ (arr : List DataPoint) (qs : List ℚ),
      arr.map (fun d => d.value) = qs.map (fun q => some (JSNum.num q)) →
      arr ≠ [] →
      ∃ q, qs[getIndexForDataMax arr]? = some q ∧
        (∀ r ∈ qs, r ≤ q) ∧
        (∀ j, j < getIndexForDataMax arr → ∀ r, qs[j]? = some r → r < q)) := by
  have hbound : ∀ arr : List DataPoint, arr ≠ [] → getIndexForDataMax arr < arr.length := by
    intro arr harr
    cases arr with
    | nil => exact absurd rfl harr
    | cons a rest =>
      have := getIndexForDataMaxAux_lt rest a.value 0 1 Nat.one_pos
      simpa [getIndexForDataMax, Nat.add_comm] using this
  refine ⟨⟨rfl, rfl⟩, hbound, ?_, ?_⟩
  · intro arr
    cases arr with
    | nil => rfl
    | cons a rest =>
      have hlt := hbound (a :: rest) (by simp)
      simp only [measuredFormattedValue, List.length_cons, if_pos (Nat.succ_pos rest.length)]
      rw [List.getElem?_eq_getElem hlt]
      rfl
  · intro arr qs h harr
    cases arr with
    | nil => exact absurd rfl harr
    | cons a rest =>
      cases qs with
      | nil => simp at h
      | cons q0 qrest =>
        simp only [List.map_cons, List.cons.injEq] at h
        obtain ⟨ha, hrest⟩ := h
        have heq : getIndexForDataMax (a :: rest) = firstMaxAux qrest q0 0 1 := by
          simp only [getIndexForDataMax]
          rw [ha]
          exact getIndexForDataMaxAux_eq rest qrest hrest q0 0 1
        rcases firstMaxAux_spec qrest q0 0 1 with ⟨hval, hall⟩ |
          ⟨k, x, hk, hval, hget, hgt, hfirst, hall⟩
        · refine ⟨q0, ?_, ?_, ?_⟩
          · rw [heq, hval]
            simp
          · intro r hr
            rcases List.mem_cons.mp hr with rfl | hr
            · exact le_refl r
            · exact hall r hr
          · intro j hj r _
            rw [heq, hval] at hj
            exact absurd hj (Nat.not_lt_zero j)
        · refine ⟨x, ?_, ?_, ?_⟩
          · rw [heq, hval, Nat.add_comm]
            simpa using hget
          · intro r hr
            rcases List.mem_cons.mp hr with rfl | hr
            · exact le_of_lt hgt
            · exact hall r hr
          · intro j hj r hr
            rw [heq, hval] at hj
            cases j with
            | zero =>
              obtain rfl : q0 = r := by simpa using hr
              exact hgt
            | succ j' =>
              exact hfirst j' (by omega) r (by simpa using hr)

/-- Witness for C9: on values `[10, 30, 30, 5]` the scan returns index 1,
the first position of the maximum 30, and the measured formatted value is
in range. -/
theorem C9_index_for_data_max_witness :
    (([10, 30, 30, 5] : List ℚ).map (fun q => some (JSNum.num q)) =
      [some (.num 10), some (.num 30), some (.num 30), some (.num 5)]) ∧
    ∃ q, ([10, 30, 30, 5] : List ℚ)[getIndexForDataMax
        [{ category := "a", color := "", currTextWidth := 0, formattedOverlapValue := "",
           formattedValue := "10", overlapValue := none, precision := none, selected := false,
           selectionId := 0, tooltip := [], value := some (.num 10), width := none },
         { category := "b", color := "", currTextWidth := 0, formattedOverlapValue := "",
           formattedValue := "30", overlapValue := none, precision := none, selected := false,
           selectionId := 1, tooltip := [], value := some (.num 30), width := none },
         { category := "c", color := "", currTextWidth := 0, formattedOverlapValue := "",
           formattedValue := "30", overlapValue := none, precision := none, selected := false,
           selectionId := 2, tooltip := [], value := some (.num 30), width := none },
         { category := "d", color := "", currTextWidth := 0, formattedOverlapValue := "",
           formattedValue := "5", overlapValue := none, precision := none, selected := false,
           selectionId := 3, tooltip := [], value := some (.num 5), width := none }]]? = some q ∧
      (∀ r ∈ ([10, 30, 30, 5] : List ℚ), r ≤ q) ∧
      (∀ j, j < getIndexForDataMax
        [{ category := "a", color := "", currTextWidth := 0, formattedOverlapValue := "",
           formattedValue := "10", overlapValue := none, precision := none, selected := false,
           selectionId := 0, tooltip := [], value := some (.num 10), width := none },
         { category := "b", color := "", currTextWidth := 0, formattedOverlapValue := "",
           formattedValue := "30", overlapValue := none, precision := none, selected := false,
           selectionId := 1, tooltip := [], value := some (.num 30), width := none },
         { category := "c", color := "", currTextWidth := 0, formattedOverlapValue := "",
           formattedValue := "30", overlapValue := none, precision := none, selected := false,
           selectionId := 2, tooltip := [], value := some (.num 30), width := none },
         { category := "d", color := "", currTextWidth := 0, formattedOverlapValue := "",
           formattedValue := "5", overlapValue := none, precision := none, selected := false,
           selectionId := 3, tooltip := [], value := some (.num 5), width := none }] →
        ∀ r, ([10, 30, 30, 5] : List ℚ)[j]? = some r → r < q) := by
  constructor
  · rfl
  · exact C9_index_for_data_max.2.2.2
      [{ category := "a", color := "", currTextWidth := 0, formattedOverlapValue := "",
         formattedValue := "10", overlapValue := none, precision := none, selected := false,
         selectionId := 0, tooltip := [], value := some (.num 10), width := none },
       { category := "b", color := "", currTextWidth := 0, formattedOverlapValue := "",
         formattedValue := "30", overlapValue := none, precision := none, selected := false,
         selectionId := 1, tooltip := [], value := some (.num 30), width := none },
       { category := "c", color := "", currTextWidth := 0, formattedOverlapValue := "",
         formattedValue := "30", overlapValue := none, precision := none, selected := false,
         selectionId := 2, tooltip := [], value := some (.num 30), width := none },
       { category := "d", color := "", currTextWidth := 0, formattedOverlapValue := "",
         formattedValue := "5", overlapValue := none, precision := none, selected := false,
         selectionId := 3, tooltip := [], value := some (.num 5), width := none }]
      [10, 30, 30, 5] rfl (by simp)

/-- A cast bound into `jsFloor`: an integer below a rational is below its
floor. -/
theorem le_jsFloor_of_le (k : ℤ) (x : ℚ) (h : (k : ℚ) ≤ x) : (k : ℚ) ≤ jsFloor x := by
  have hk : k ≤ x.floor := Rat.le_floor.mpr h
  simp only [jsFloor]
  exact_mod_cast hk

/-- `computeLayout` in the no-clamp, no-grow regime: both branch
conditions off leaves the viewport height and the initial `-0.1` outer
padding. -/
theorem computeLayout_else (H : ℚ) (n : ℕ) (settings : IBarChartSettings)
    (hngt : ¬ H / (2 * Config.outerPaddingScale - Config.xScalePadding + (n : ℚ)) >
      H / Config.maxHeightScale)
    (hnand : ¬ (H / (2 * Config.outerPaddingScale - Config.xScalePadding + (n : ℚ)) <
        resolvedMinBarHeight settings ∧
      calcHeightFor n (resolvedMinBarHeight settings) > H)) :
    computeLayout H n settings =
      { height := H, outerPadding := -0.1,
        step := scaleBandStep 5 H n Config.barPadding (-0.1),
        bandwidth := scaleBandBandwidth 5 H n Config.barPadding (-0.1) } := by
  simp only [computeLayout, if_neg hngt, if_neg hnand]

/-- `computeLayout` in the grow regime: slots would fall under the floor
and the minimum-height chart is taller than the viewport, so the height
is grown to `calcHeight`. -/
theorem computeLayout_grow (H : ℚ) (n : ℕ) (settings : IBarChartSettings)
    (hngt : ¬ H / (2 * Config.outerPaddingScale - Config.xScalePadding + (n : ℚ)) >
      H / Config.maxHeightScale)
    (hand : H / (2 * Config.outerPaddingScale - Config.xScalePadding + (n : ℚ)) <
        resolvedMinBarHeight settings ∧
      calcHeightFor n (resolvedMinBarHeight settings) > H) :
    (computeLayout H n settings).height = calcHeightFor n (resolvedMinBarHeight settings) := by
  simp only [computeLayout, if_neg hngt, if_pos hand]

/-- In the no-clamp, no-grow regime the band step is the floor of
`(H - 5) / (n - 0.35)`. -/
theorem scaleBandStep_else (H : ℚ) (n : ℕ) (h5 : ¬ H < 5) (hn3 : (3 : ℚ) ≤ (n : ℚ)) :
    scaleBandStep 5 H n Config.barPadding (-0.1) = jsFloor ((H - 5) / ((n : ℚ) - 0.35)) := by
  have hmm : max (0 : ℚ) (min 1 Config.barPadding) = 0.15 := by norm_num [Config]
  have hX : (n : ℚ) - 0.15 + (-0.1) * 2 = (n : ℚ) - 0.35 := by ring
  simp only [scaleBandStep, hmm, if_neg h5]
  rw [hX, max_eq_right (by linarith)]

/-- Counterexample to claim C2: at viewport height 90 with a single row
and the default settings (fixed bar height 30), the outer-padding clamp
fires but the band range starts at 5, so the rounded step is
`floor(85 / 3) = 28 < 30`, the bandwidth is 24, and the height is left
at 90 — it is not grown to `calcHeight = 31.5`.  Bars are rendered
thinner than the floor. -/
theorem C2_min_bar_height_counterexample :
    ¬(resolvedMinBarHeight defaultSettings ≤ (computeLayout 90 1 defaultSettings).step ∨
      (computeLayout 90 1 defaultSettings).height =
        calcHeightFor 1 (resolvedMinBarHeight defaultSettings)) ∧
    (computeLayout 90 1 defaultSettings).step < resolvedMinBarHeight defaultSettings ∧
    (computeLayout 90 1 defaultSettings).bandwidth < resolvedMinBarHeight defaultSettings ∧
    (computeLayout 90 1 defaultSettings).height = 90 := by
  have hfl : ((85 : ℚ) / 3).floor = 28 := by
    show ⌊(85 : ℚ) / 3⌋ = 28
    rw [Int.floor_eq_iff]
    norm_num
  have hfl2 : ((243 : ℚ) / 10).floor = 24 := by
    show ⌊(243 : ℚ) / 10⌋ = 24
    rw [Int.floor_eq_iff]
    norm_num
  have hL : computeLayout 90 1 defaultSettings =
      { height := 90, outerPadding := 43 / 40, step := 28, bandwidth := 24 } := by
    simp only [computeLayout, resolvedMinBarHeight, calcHeightFor, scaleBandStep,
      scaleBandBandwidth, jsFloor, jsRound, Config, defaultSettings]
    norm_num [hfl, hfl2]
  rw [hL]
  refine ⟨?_, ?_, ?_, rfl⟩
  · intro h
    rcases h with h | h
    · norm_num [resolvedMinBarHeight, defaultSettings] at h
    · norm_num [resolvedMinBarHeight, defaultSettings, calcHeightFor, Config] at h
  · norm_num [resolvedMinBarHeight, defaultSettings]
  · norm_num [resolvedMinBarHeight, defaultSettings]

/-- Claim C2 as amended: for at least 3 rows and an integral resolved
minimum bar height of at least 13 (the default 30 and the host-validated
range 20-200 qualify), the rounded band step is at least the resolved
minimum, or the drawing height is grown to `calcHeight`.  (With 1 or 2
rows the step can fall below the floor without growth because the band
range starts at 5 — see the counterexample.) -/
theorem C2_min_bar_height_amended (H : ℚ) (n : ℕ) (settings : IBarChartSettings) (k : ℤ)
    (hH : 0 ≤ H) (hn : 3 ≤ n) (hmk : resolvedMinBarHeight settings = (k : ℚ))
    (hk : 13 ≤ k) :
    resolvedMinBarHeight settings ≤ (computeLayout H n settings).step ∨
    (computeLayout H n settings).height =
      calcHeightFor n (resolvedMinBarHeight settings) := by
  have hn3 : (3 : ℚ) ≤ (n : ℚ) := by exact_mod_cast hn
  have hkq : (13 : ℚ) ≤ (k : ℚ) := by exact_mod_cast hk
  have hD : (0 : ℚ) < 2 * Config.outerPaddingScale - Config.xScalePadding + (n : ℚ) := by
    norm_num [Config]
    linarith
  have hngt : ¬ H / (2 * Config.outerPaddingScale - Config.xScalePadding + (n : ℚ)) >
      H / Config.maxHeightScale := by
    rw [gt_iff_lt, not_lt, div_le_div_iff₀ hD (by norm_num [Config])]
    have hfac : (0 : ℚ) ≤ (n : ℚ) - 3 + 0.85 := by linarith
    norm_num [Config]
    nlinarith [mul_nonneg hH hfac]
  by_cases hand : H / (2 * Config.outerPaddingScale - Config.xScalePadding + (n : ℚ)) <
      resolvedMinBarHeight settings ∧
    calcHeightFor n (resolvedMinBarHeight settings) > H
  · exact Or.inr (computeLayout_grow H n settings hngt hand)
  · left
    have hmain : (k : ℚ) * ((n : ℚ) - 0.35) ≤ H - 5 := by
      rcases not_and_or.mp hand with hA | hB
      · have hle : resolvedMinBarHeight settings ≤
            H / (2 * Config.outerPaddingScale - Config.xScalePadding + (n : ℚ)) :=
          not_lt.mp hA
        rw [hmk, le_div_iff₀ hD] at hle
        norm_num [Config] at hle
        nlinarith
      · have hle : calcHeightFor n (resolvedMinBarHeight settings) ≤ H := not_lt.mp hB
        rw [hmk] at hle
        norm_num [calcHeightFor, Config] at hle
        nlinarith
    have h5 : ¬ H < 5 := by
      rw [not_lt]
      have hpos : (0 : ℚ) ≤ (k : ℚ) * ((n : ℚ) - 0.35) :=
        mul_nonneg (by linarith) (by linarith)
      linarith
    rw [computeLayout_else H n settings hngt hand]
    show resolvedMinBarHeight settings ≤ scaleBandStep 5 H n Config.barPadding (-0.1)
    rw [scaleBandStep_else H n h5 hn3, hmk]
    refine le_jsFloor_of_le k _ ?_
    rw [le_div_iff₀ (by linarith)]
    exact hmain

/-- Witness for C2 as amended: viewport height 400, 3 rows, default
settings (resolved minimum 30). -/
theorem C2_min_bar_height_amended_witness :
    ((0 : ℚ) ≤ 400 ∧ 3 ≤ 3 ∧ resolvedMinBarHeight defaultSettings = ((30 : ℤ) : ℚ) ∧
      (13 : ℤ) ≤ 30) ∧
    (resolvedMinBarHeight defaultSettings ≤ (computeLayout 400 3 defaultSettings).step ∨
      (computeLayout 400 3 defaultSettings).height =
        calcHeightFor 3 (resolvedMinBarHeight defaultSettings)) := by
  constructor
  · exact ⟨by norm_num, le_refl 3, by norm_num [resolvedMinBarHeight, defaultSettings],
      by norm_num⟩
  · exact C2_min_bar_height_amended 400 3 defaultSettings 30 (by norm_num) (le_refl 3)
      (by norm_num [resolvedMinBarHeight, defaultSettings]) (by norm_num)
